import Mathlib

/-!
Verification development for the vitals ingestion, threshold-evaluation and
emergency-alert dispatch pipeline of the HealthCare repository.

The definitions below are a shallow embedding of the TypeScript sources

  src/integrations/firebase/vitals.ts      (checkVitalThresholds, addVitalReading)
  src/integrations/firebase/firestore.ts   (addVitalReading, createEmergencyAlert, acknowledgeAlert)
  src/integrations/emergency/sos.ts        (EmergencySOSManager and its methods)

Modelling conventions:
  * numeric vitals values are rationals (the sources use JS numbers on
    decimal thresholds such as 96.8);
  * an optional field `x?: T` is `Option T`; `none` is JS `undefined`;
  * JS truthiness on a number is `v ≠ 0`, on a string `s ≠ ""`, on an
    object/array it is presence (`isSome`);
  * the Firestore document store is passed explicitly: a list of documents
    for collections that are appended to, an `Option` of a document for
    operations addressing a single document id;
  * outcomes of external collaborators (location provider, medical-profile
    lookup, document writes, notification transport) are injected through
    an environment record of `Except`/`Bool` results, one per await point;
  * `serverTimestamp()` fields are omitted: no claim observes them.
-/

/-- Blood-pressure pair carried inside a vital reading
(`bloodPressure: { systolic, diastolic }` in vitals.ts). -/
structure BloodPressure where
  systolic : ℚ
  diastolic : ℚ
deriving Repr, DecidableEq

/-- A vital reading (interface `VitalReading` in vitals.ts).  `patientId` is
`Option String` because the claims quantify over raw runtime inputs where the
field may be absent (TS types are erased at runtime).  `isEmergency` is
`none` on raw input and set by the ingestion pipeline. -/
structure VitalReading where
  patientId : Option String := none
  heartRate : Option ℚ := none
  oxygenSaturation : Option ℚ := none
  temperature : Option ℚ := none
  bloodPressure : Option BloodPressure := none
  deviceId : Option String := none
  isEmergency : Option Bool := none
deriving Repr, DecidableEq

/-- A { min, max } range in `VitalThresholds`. -/
structure ThresholdRange where
  min : ℚ
  max : ℚ
deriving Repr, DecidableEq

/-- The oxygen-saturation threshold has only a `min` field. -/
structure MinThreshold where
  min : ℚ
deriving Repr, DecidableEq

/-- Nested blood-pressure thresholds. -/
structure BPThresholds where
  systolic : ThresholdRange
  diastolic : ThresholdRange
deriving Repr, DecidableEq

/-- Interface `VitalThresholds` in vitals.ts. -/
structure VitalThresholds where
  heartRate : ThresholdRange
  oxygenSaturation : MinThreshold
  temperature : ThresholdRange
  bloodPressure : BPThresholds
deriving Repr, DecidableEq

/-- `DEFAULT_THRESHOLDS` in vitals.ts. -/
def DEFAULT_THRESHOLDS : VitalThresholds :=
  { heartRate := { min := 60, max := 100 }
    oxygenSaturation := { min := 90 }
    temperature := { min := 96.8, max := 100.4 }
    bloodPressure :=
      { systolic := { min := 90, max := 140 }
        diastolic := { min := 60, max := 90 } } }

/-- `checkVitalThresholds` in vitals.ts.  Each present field is compared
strictly against its range; the source's `isEmergency` accumulator variable,
only ever assigned `true`, is the disjunction of the four block conditions.
The source tests scalar fields with `!== undefined` and the blood-pressure
object with truthiness, which for an object is presence. -/
def checkVitalThresholds (reading : VitalReading) (thresholds : VitalThresholds) : Bool :=
  (match reading.heartRate with
   | some hr => decide (hr < thresholds.heartRate.min) || decide (hr > thresholds.heartRate.max)
   | none => false) ||
  (match reading.oxygenSaturation with
   | some o => decide (o < thresholds.oxygenSaturation.min)
   | none => false) ||
  (match reading.temperature with
   | some t => decide (t < thresholds.temperature.min) || decide (t > thresholds.temperature.max)
   | none => false) ||
  (match reading.bloodPressure with
   | some bp =>
      decide (bp.systolic < thresholds.bloodPressure.systolic.min) ||
      decide (bp.systolic > thresholds.bloodPressure.systolic.max) ||
      decide (bp.diastolic < thresholds.bloodPressure.diastolic.min) ||
      decide (bp.diastolic > thresholds.bloodPressure.diastolic.max)
   | none => false)

/-- Alert severity (`'low' | 'medium' | 'high' | 'critical'` in sos.ts). -/
inductive Severity where
  | low
  | medium
  | high
  | critical
deriving Repr, DecidableEq

/-- The per-metric contribution to `calculateVitalsSeverity`'s two counters:
the source guards each metric with JS truthiness (`if (vitalData.heartRate)`),
so a present value of 0 contributes to neither counter; otherwise the
critical-band test runs first and the warning-band test only in its
`else if`. -/
def sevCounts (x : Option ℚ) (crit warn : ℚ → Bool) : Nat × Nat :=
  match x with
  | none => (0, 0)
  | some val =>
    if val = 0 then (0, 0)
    else if crit val then (1, 0)
    else if warn val then (0, 1)
    else (0, 0)

/-- Heart-rate critical band of `calculateVitalsSeverity`: `< 40 || > 150`. -/
def hrCritBand (x : ℚ) : Bool := decide (x < 40) || decide (x > 150)

/-- Heart-rate warning band of `calculateVitalsSeverity`: `< 50 || > 120`. -/
def hrWarnBand (x : ℚ) : Bool := decide (x < 50) || decide (x > 120)

/-- Oxygen-saturation critical band: `< 85`. -/
def o2CritBand (x : ℚ) : Bool := decide (x < 85)

/-- Oxygen-saturation warning band: `< 90`. -/
def o2WarnBand (x : ℚ) : Bool := decide (x < 90)

/-- Temperature critical band: `< 95 || > 104`. -/
def tempCritBand (x : ℚ) : Bool := decide (x < 95) || decide (x > 104)

/-- Temperature warning band: `< 96.5 || > 101`. -/
def tempWarnBand (x : ℚ) : Bool := decide (x < 96.5) || decide (x > 101)

/-- `calculateVitalsSeverity` in sos.ts (it reads only heartRate,
oxygenSaturation and temperature). -/
def calculateVitalsSeverity (vitalData : VitalReading) : Severity :=
  let hr := sevCounts vitalData.heartRate hrCritBand hrWarnBand
  let o2 := sevCounts vitalData.oxygenSaturation o2CritBand o2WarnBand
  let tp := sevCounts vitalData.temperature tempCritBand tempWarnBand
  let criticalCount := hr.1 + o2.1 + tp.1
  let warningCount := hr.2 + o2.2 + tp.2
  if criticalCount ≥ 2 then Severity.critical
  else if criticalCount ≥ 1 then Severity.high
  else if warningCount ≥ 2 then Severity.medium
  else Severity.low

example : checkVitalThresholds { heartRate := some 100 } DEFAULT_THRESHOLDS = false := by decide
example : checkVitalThresholds { heartRate := some 101 } DEFAULT_THRESHOLDS = true := by decide
example : checkVitalThresholds { oxygenSaturation := some 90 } DEFAULT_THRESHOLDS = false := by decide
example : checkVitalThresholds { oxygenSaturation := some 89 } DEFAULT_THRESHOLDS = true := by decide
example : calculateVitalsSeverity { heartRate := some 160, oxygenSaturation := some 80 } = Severity.critical := by decide
example : calculateVitalsSeverity { heartRate := some 0, oxygenSaturation := some 80 } = Severity.high := by decide
example : calculateVitalsSeverity { heartRate := some 0 } = Severity.low := by decide
example : checkVitalThresholds { heartRate := some 0 } DEFAULT_THRESHOLDS = true := by decide
example : calculateVitalsSeverity { heartRate := some 110 } = Severity.low := by decide
example : checkVitalThresholds { heartRate := some 110 } DEFAULT_THRESHOLDS = true := by decide

/-- The alert document created by the ingestion path: `addVitalReading` in
vitals.ts calls `createEmergencyAlert` in firestore.ts with
`{ patientId, vitalReading, alertType: 'vital_threshold_exceeded' }`, and
`createEmergencyAlert` spreads that payload and adds
`status: 'active'`, `acknowledgedBy: null`, `acknowledgedAt: null`
(plus `id` and `createdAt`, not observed by any claim). -/
structure IngestAlertDoc where
  patientId : Option String
  vitalReading : VitalReading
  alertType : String
  status : String
  acknowledgedBy : Option String
deriving Repr, DecidableEq

/-- Outcomes of the two document writes awaited by the ingestion path:
`addVitalToFirestore` (returns the new reading id or throws) and the
`setDoc` inside `createEmergencyAlert` (returns the alert id or throws). -/
structure IngestEnv where
  persistReadingResult : Except Unit String
  persistAlertResult : Except Unit String
deriving Repr

/-- `addVitalReading` in vitals.ts (the ingestion pipeline): build the
reading with `isEmergency := checkVitalThresholds reading`, persist it via
firestore's `addVitalReading`, and if it is an emergency call
`createEmergencyAlert`; any thrown error is re-thrown after logging.
Returns the updated readings list, the updated alerts list and the result
(`Except.ok docId` or the propagated error). -/
def addVitalReading (readings : List VitalReading) (alerts : List IngestAlertDoc)
    (reading : VitalReading) (env : IngestEnv) :
    List VitalReading × List IngestAlertDoc × Except Unit String :=
  let vitalReading : VitalReading :=
    { reading with isEmergency := some (checkVitalThresholds reading DEFAULT_THRESHOLDS) }
  match env.persistReadingResult with
  | Except.error e => (readings, alerts, Except.error e)
  | Except.ok docId =>
    if checkVitalThresholds reading DEFAULT_THRESHOLDS then
      match env.persistAlertResult with
      | Except.error e => (readings ++ [vitalReading], alerts, Except.error e)
      | Except.ok _ =>
        (readings ++ [vitalReading],
         alerts ++ [{ patientId := reading.patientId
                      vitalReading := vitalReading
                      alertType := "vital_threshold_exceeded"
                      status := "active"
                      acknowledgedBy := none }],
         Except.ok docId)
    else
      (readings ++ [vitalReading], alerts, Except.ok docId)

example :
    addVitalReading [] [] { patientId := some "P1", heartRate := some 180 }
      { persistReadingResult := Except.ok "r1", persistAlertResult := Except.ok "a1" } =
    ([{ patientId := some "P1", heartRate := some 180, isEmergency := some true }],
     [{ patientId := some "P1"
        vitalReading := { patientId := some "P1", heartRate := some 180, isEmergency := some true }
        alertType := "vital_threshold_exceeded"
        status := "active"
        acknowledgedBy := none }],
     Except.ok "r1") := by
  norm_num [addVitalReading, checkVitalThresholds, DEFAULT_THRESHOLDS]

/-- Location snapshot (`LocationData` in gps.ts, reduced to the fields the
dispatcher copies unconditionally; the optional altitude/heading/speed
cleanup does not bear on any claim). -/
structure LocationData where
  latitude : ℚ
  longitude : ℚ
  accuracy : ℚ
deriving Repr, DecidableEq

/-- Medical profile as observed by the dispatcher: the only field it reads
is `emergencyContacts` (tested with JS truthiness, where any present array —
even empty — is truthy). -/
structure MedicalProfile where
  emergencyContacts : Option (List String) := none
deriving Repr, DecidableEq

/-- An `EmergencyAlert` document as written by sos.ts (interface
`EmergencyAlert`; timestamp fields omitted — no claim observes them). -/
structure AlertDoc where
  patientId : String
  type : String
  severity : Severity
  status : String
  location : Option LocationData := none
  vitalData : Option VitalReading := none
  medicalProfile : Option MedicalProfile := none
  message : Option String := none
  acknowledgedBy : Option String := none
  responderId : Option String := none
deriving Repr, DecidableEq

/-- JS `x || dflt` on an optional string (empty string is falsy). -/
def jsOrStr (x : Option String) (dflt : String) : String :=
  match x with
  | some s => if s = "" then dflt else s
  | none => dflt

/-- JS truthiness of an optional string (`null`/`undefined` and `""` are
falsy). -/
def jsTruthyStr (x : Option String) : Bool :=
  match x with
  | none => false
  | some s => decide (s ≠ "")

/-- The guard `medicalProfile?.emergencyContacts` in triggerSOS: true iff the
profile was gathered and its `emergencyContacts` field is present. -/
def hasEmergencyContacts (p : Option MedicalProfile) : Bool :=
  match p with
  | some prof => prof.emergencyContacts.isSome
  | none => false

/-- Outcomes of the external await points inside one dispatch:
the location gather, the medical-profile lookup (which may return a profile,
`null`, or throw), the alert `addDoc`, and the three notification legs
(whose outcomes the source swallows inside the private notify helpers). -/
structure DispatchEnv where
  locationResult : Except Unit LocationData
  profileResult : Except Unit (Option MedicalProfile)
  persistResult : Except Unit String
  notifyRespondersOk : Bool
  notifyFamilyOk : Bool
  notifyContactsOk : Bool

/-- The `medicalProfile` local after its try/catch: the looked-up value, or
`undefined` when the lookup threw. -/
def gatheredProfile (env : DispatchEnv) : Option MedicalProfile :=
  match env.profileResult with
  | Except.ok p => p
  | Except.error _ => none

/-- Which of the three notification legs a dispatch attempted. -/
structure NotifyAttempts where
  responders : Bool
  family : Bool
  contacts : Bool
deriving Repr, DecidableEq

/-- In-memory state of the `EmergencySOSManager` singleton
(`isSOSActive`, `currentAlertId`). -/
structure SOSState where
  isSOSActive : Bool
  currentAlertId : Option String
deriving Repr, DecidableEq

/-- Interface `SOSResponse` in sos.ts.  `alertId` is `Option String` because
the early-return path reads `this.currentAlertId!`, whose runtime value is
whatever the session holds (`null` when the invariant is violated). -/
structure SOSResponse where
  alertId : Option String
  success : Bool
  message : String
deriving Repr, DecidableEq

/-- `generateVitalsMessage` in sos.ts: each metric is guarded by
JS truthiness (`vitalData.heartRate && ...`), then tested against the
looser warning-style bands used for message text. -/
def generateVitalsMessage (vitalData : VitalReading) : String :=
  let issues :=
    (match vitalData.heartRate with
     | some hr => if hr ≠ 0 ∧ (hr < 50 ∨ hr > 120) then ["Heart rate: " ++ toString hr ++ " BPM"] else []
     | none => []) ++
    (match vitalData.oxygenSaturation with
     | some o => if o ≠ 0 ∧ o < 90 then ["Oxygen saturation: " ++ toString o ++ "%"] else []
     | none => []) ++
    (match vitalData.temperature with
     | some t => if t ≠ 0 ∧ (t < 96.5 ∨ t > 101) then ["Temperature: " ++ toString t ++ "°F"] else []
     | none => [])
  if issues.length > 0 then "Critical vitals detected: " ++ String.intercalate ", " issues
  else "Abnormal vital signs detected"

/-- The `manual_sos` alert record built inside `triggerSOS` (sos.ts):
`type 'manual_sos'`, `severity 'critical'`, `status 'active'`, the
best-effort location and profile gathers, and `message || 'Emergency SOS
activated'`. -/
def sosAlertDoc (patientId : String) (message : Option String) (env : DispatchEnv) : AlertDoc :=
  { patientId := patientId
    type := "manual_sos"
    severity := Severity.critical
    status := "active"
    location := env.locationResult.toOption
    medicalProfile := gatheredProfile env
    message := some (jsOrStr message "Emergency SOS activated") }

/-- The `vitals_critical` alert record built inside `triggerVitalsAlert`
(sos.ts). -/
def vitalsAlertDoc (patientId : String) (vitalData : VitalReading) (env : DispatchEnv) : AlertDoc :=
  { patientId := patientId
    type := "vitals_critical"
    severity := calculateVitalsSeverity vitalData
    status := "active"
    location := env.locationResult.toOption
    vitalData := some vitalData
    medicalProfile := gatheredProfile env
    message := some (generateVitalsMessage vitalData) }

/-- `triggerSOS` in sos.ts.  While a session is active it returns early with
a failure response carrying the current alert id and performs no effect.
Otherwise: best-effort location and profile gathers (each try/catch degrades
to `undefined`), persist the `manual_sos`/critical/active alert, store the
returned id in the session, then attempt the responder leg always and the
emergency-contact leg only under the `medicalProfile?.emergencyContacts`
guard (no family leg exists on this path; leg outcomes are swallowed by the
notify helpers' own try/catch).  A persistence throw hits the outer catch,
which resets the session flags and returns a failure response with an empty
alert id. -/
def triggerSOS (st : SOSState) (store : List (String × AlertDoc)) (patientId : String)
    (message : Option String) (env : DispatchEnv) :
    SOSState × List (String × AlertDoc) × SOSResponse × NotifyAttempts :=
  if st.isSOSActive then
    (st, store,
     { alertId := st.currentAlertId, success := false, message := "SOS already active" },
     { responders := false, family := false, contacts := false })
  else
    let medicalProfile := gatheredProfile env
    let alert := sosAlertDoc patientId message env
    match env.persistResult with
    | Except.error _ =>
      ({ isSOSActive := false, currentAlertId := none }, store,
       { alertId := some "", success := false, message := "Failed to send emergency alert" },
       { responders := false, family := false, contacts := false })
    | Except.ok docId =>
      ({ isSOSActive := true, currentAlertId := some docId }, store ++ [(docId, alert)],
       { alertId := some docId, success := true, message := "Emergency alert sent successfully" },
       { responders := true, family := false, contacts := hasEmergencyContacts medicalProfile })

/-- Outcomes of the await points inside `cancelSOS`: the status update and
the cancellation notification (the latter is awaited inside the same try,
after the session flags are cleared). -/
structure CancelEnv where
  updateResult : Except Unit Unit
  notifyResult : Except Unit Unit

/-- `cancelSOS` in sos.ts.  Guard: `!this.isSOSActive || !this.currentAlertId`
returns false with no effect (JS truthiness: a null or empty id fails the
guard).  Otherwise mark the current alert resolved with the cancellation
reason as message, clear the session, and notify; any throw yields false. -/
def cancelSOS (st : SOSState) (store : List (String × AlertDoc)) (reason : Option String)
    (env : CancelEnv) : SOSState × List (String × AlertDoc) × Bool :=
  match st.isSOSActive, st.currentAlertId with
  | true, some aid =>
    if aid = "" then (st, store, false)
    else
      match env.updateResult with
      | Except.error _ => (st, store, false)
      | Except.ok _ =>
        let store2 := store.map (fun p =>
          if p.1 = aid then
            (p.1, { p.2 with status := "resolved"
                             message := some (jsOrStr reason "SOS cancelled by patient") })
          else p)
        let st2 : SOSState := { isSOSActive := false, currentAlertId := none }
        match env.notifyResult with
        | Except.error _ => (st2, store2, false)
        | Except.ok _ => (st2, store2, true)
  | _, _ => (st, store, false)

/-- `triggerVitalsAlert` in sos.ts: best-effort location and profile gathers,
severity from `calculateVitalsSeverity`, persist the alert
(`type = 'vitals_critical'`, `status = 'active'`); on success notify
responders only when the computed severity is critical, then always notify
family; a persistence throw propagates out of the method. -/
def triggerVitalsAlert (store : List (String × AlertDoc)) (patientId : String)
    (vitalData : VitalReading) (env : DispatchEnv) :
    List (String × AlertDoc) × Except Unit String × NotifyAttempts :=
  let severity := calculateVitalsSeverity vitalData
  let alert := vitalsAlertDoc patientId vitalData env
  match env.persistResult with
  | Except.error e => (store, Except.error e, { responders := false, family := false, contacts := false })
  | Except.ok docId =>
    (store ++ [(docId, alert)], Except.ok docId,
     { responders := decide (severity = Severity.critical)
       family := true
       contacts := false })

/-- `acknowledgeAlert` in sos.ts: an unconditional `updateDoc` setting
`status: 'acknowledged'` and `acknowledgedBy`, with no guard on the current
document; the catch (e.g. a missing document) returns false.  `stored` is
the document currently at the addressed alert id, if any. -/
def sosAcknowledgeAlert (stored : Option AlertDoc) (responderId : String) :
    Option AlertDoc × Bool :=
  match stored with
  | none => (none, false)
  | some d => (some { d with status := "acknowledged", acknowledgedBy := some responderId }, true)

/-- `startResponse` in sos.ts: an unconditional `updateDoc` setting
`status: 'responding'` and `responderId`, with no guard on the current
document. -/
def sosStartResponse (stored : Option AlertDoc) (responderId : String) :
    Option AlertDoc × Bool :=
  match stored with
  | none => (none, false)
  | some d => (some { d with status := "responding", responderId := some responderId }, true)

/-- `resolveAlert` in sos.ts: an unconditional `updateDoc` setting
`status: 'resolved'` and `message: resolution`; afterwards, if the resolved
id is the session's current alert, the session flags are cleared. -/
def sosResolveAlert (st : SOSState) (alertId : String) (stored : Option AlertDoc)
    (resolution : String) : SOSState × Option AlertDoc × Bool :=
  match stored with
  | none => (st, none, false)
  | some d =>
    let st2 := if st.currentAlertId = some alertId then
      ({ isSOSActive := false, currentAlertId := none } : SOSState) else st
    (st2, some { d with status := "resolved", message := some resolution }, true)

/-- The transaction body of `acknowledgeAlert` in firestore.ts: read the
document; throw if it is missing; throw `Alert already acknowledged` if the
stored `acknowledgedBy` is truthy (null and the empty string are falsy);
otherwise update it to acknowledged.  `runTransaction` serialises this
read-modify-write atomically. -/
def acknowledgeAlertTx (stored : Option AlertDoc) (responderId : String) :
    Except String AlertDoc :=
  match stored with
  | none => Except.error "Alert does not exist"
  | some d =>
    if jsTruthyStr d.acknowledgedBy then Except.error "Alert already acknowledged"
    else Except.ok { d with status := "acknowledged", acknowledgedBy := some responderId }

/-- Effect of one (serialised) `acknowledgeAlert` transaction on the stored
document: the update on success, the document unchanged on error. -/
def applyAcknowledge (stored : Option AlertDoc) (responderId : String) :
    Option AlertDoc × Bool :=
  match acknowledgeAlertTx stored responderId with
  | Except.ok d2 => (some d2, true)
  | Except.error _ => (stored, false)

/-!  Spec-side definitions.  These follow the words of the specification and
of the claims, to be compared with the definitions above, which follow the
source. -/

/-- Spec-side reading of the threshold evaluator: some field present in the
reading lies strictly outside its configured range (absent fields are never
violations; bounds are inclusive, i.e. a violation is strict). -/
def fieldStrictlyOutside (r : VitalReading) (t : VitalThresholds) : Prop :=
  (∃ hr, r.heartRate = some hr ∧ (hr < t.heartRate.min ∨ hr > t.heartRate.max)) ∨
  (∃ o, r.oxygenSaturation = some o ∧ o < t.oxygenSaturation.min) ∨
  (∃ tm, r.temperature = some tm ∧ (tm < t.temperature.min ∨ tm > t.temperature.max)) ∨
  (∃ bp, r.bloodPressure = some bp ∧
    (bp.systolic < t.bloodPressure.systolic.min ∨ bp.systolic > t.bloodPressure.systolic.max ∨
     bp.diastolic < t.bloodPressure.diastolic.min ∨ bp.diastolic > t.bloodPressure.diastolic.max))

/-- Spec-side count of one metric towards the critical band: present with a
nonzero (truthy) value and inside the band. -/
def metricCrit (x : Option ℚ) (crit : ℚ → Bool) : Nat :=
  match x with
  | none => 0
  | some v => if v ≠ 0 ∧ crit v then 1 else 0

/-- Spec-side count of one metric towards the warning band: present with a
nonzero value, not in the critical band, and inside the warning band. -/
def metricWarn (x : Option ℚ) (crit warn : ℚ → Bool) : Nat :=
  match x with
  | none => 0
  | some v => if v ≠ 0 ∧ ¬ crit v ∧ warn v then 1 else 0

/-- Number of nonzero-valued metrics of a reading in the severity
classifier's critical bands. -/
def nonzeroCritCount (v : VitalReading) : Nat :=
  metricCrit v.heartRate hrCritBand +
  metricCrit v.oxygenSaturation o2CritBand +
  metricCrit v.temperature tempCritBand

/-- Number of nonzero-valued metrics of a reading in the severity
classifier's warning bands (and not in its critical bands). -/
def nonzeroWarnCount (v : VitalReading) : Nat :=
  metricWarn v.heartRate hrCritBand hrWarnBand +
  metricWarn v.oxygenSaturation o2CritBand o2WarnBand +
  metricWarn v.temperature tempCritBand tempWarnBand

lemma sevCounts_eq (x : Option ℚ) (crit warn : ℚ → Bool) :
    sevCounts x crit warn = (metricCrit x crit, metricWarn x crit warn) := by
  cases x with
  | none => rfl
  | some v =>
    by_cases h0 : v = 0 <;> by_cases hc : crit v <;> by_cases hw : warn v <;>
      simp [sevCounts, metricCrit, metricWarn, h0, hc, hw]

lemma addVitalReading_ok_eq (readings : List VitalReading) (alerts : List IngestAlertDoc)
    (reading : VitalReading) (rid aid : String) :
    addVitalReading readings alerts reading
      { persistReadingResult := Except.ok rid, persistAlertResult := Except.ok aid } =
    (readings ++ [{ reading with isEmergency := some (checkVitalThresholds reading DEFAULT_THRESHOLDS) }],
     (if checkVitalThresholds reading DEFAULT_THRESHOLDS then
        alerts ++ [{ patientId := reading.patientId
                     vitalReading := { reading with isEmergency := some (checkVitalThresholds reading DEFAULT_THRESHOLDS) }
                     alertType := "vital_threshold_exceeded"
                     status := "active"
                     acknowledgedBy := none }]
      else alerts),
     Except.ok rid) := by
  by_cases h : checkVitalThresholds reading DEFAULT_THRESHOLDS <;>
    simp [addVitalReading, h]



/-- Claim C2: the threshold evaluator is pure and returns true iff some field
present in the reading lies strictly outside its configured range; absent
fields are never violations and range bounds are inclusive, witnessed at the
stated boundary examples under the default thresholds. -/
theorem checkVitalThresholds_spec :
    (∀ (r : VitalReading) (t : VitalThresholds),
        checkVitalThresholds r t = true ↔ fieldStrictlyOutside r t) ∧
    checkVitalThresholds { heartRate := some 100 } DEFAULT_THRESHOLDS = false ∧
    checkVitalThresholds { heartRate := some 101 } DEFAULT_THRESHOLDS = true ∧
    checkVitalThresholds { oxygenSaturation := some 90 } DEFAULT_THRESHOLDS = false ∧
    checkVitalThresholds { oxygenSaturation := some 89 } DEFAULT_THRESHOLDS = true := by
  refine ⟨fun r t => ?_, by decide, by decide, by decide, by decide⟩
  obtain ⟨pid, hr, o2, tp, bp, dev, em⟩ := r
  cases hr <;> cases o2 <;> cases tp <;> cases bp <;>
    simp [checkVitalThresholds, fieldStrictlyOutside] <;> tauto

/-- Claim C4, counterexample: the reading with heartRate 0 and
oxygenSaturation 80 has two metrics in the stated critical bands
(heartRate < 40; oxygenSaturation < 85), yet the severity classifier returns
high, not critical, because its truthiness guard skips the zero-valued
heart rate. -/
theorem calculateVitalsSeverity_zero_band_counterexample :
    ({ heartRate := some 0, oxygenSaturation := some 80 } : VitalReading).heartRate = some 0 ∧
    hrCritBand 0 = true ∧
    ({ heartRate := some 0, oxygenSaturation := some 80 } : VitalReading).oxygenSaturation = some 80 ∧
    o2CritBand 80 = true ∧
    calculateVitalsSeverity { heartRate := some 0, oxygenSaturation := some 80 } = Severity.high ∧
    Severity.high ≠ Severity.critical := by decide

/-- Claim C4, amended: over the metrics with nonzero (truthy) values, the
severity classifier returns critical for at least two critical-band
violations, high for exactly one, medium for no critical but at least two
warning-band violations, and low otherwise; in particular heartRate 160 with
oxygenSaturation 80 yields critical. -/
theorem calculateVitalsSeverity_policy :
    (∀ v : VitalReading,
        calculateVitalsSeverity v =
          (if 2 ≤ nonzeroCritCount v then Severity.critical
           else if 1 ≤ nonzeroCritCount v then Severity.high
           else if 2 ≤ nonzeroWarnCount v then Severity.medium
           else Severity.low)) ∧
    calculateVitalsSeverity { heartRate := some 160, oxygenSaturation := some 80 } = Severity.critical := by
  refine ⟨fun v => ?_, by decide⟩
  simp [calculateVitalsSeverity, sevCounts_eq, nonzeroCritCount, nonzeroWarnCount]

/-- Claim C10: the boolean emergency classifier and the severity classifier
disagree on zero-valued vitals: a reading with heartRate 0 is classified as
an emergency by checkVitalThresholds but gets severity low from
calculateVitalsSeverity, and in general the severity classifier treats any
zero-valued metric exactly like an absent one. -/
theorem zero_vitals_classifier_disagreement :
    checkVitalThresholds { heartRate := some 0 } DEFAULT_THRESHOLDS = true ∧
    calculateVitalsSeverity { heartRate := some 0 } = Severity.low ∧
    (∀ v : VitalReading,
        calculateVitalsSeverity { v with heartRate := some 0 } =
        calculateVitalsSeverity { v with heartRate := none }) ∧
    (∀ v : VitalReading,
        calculateVitalsSeverity { v with oxygenSaturation := some 0 } =
        calculateVitalsSeverity { v with oxygenSaturation := none }) ∧
    (∀ v : VitalReading,
        calculateVitalsSeverity { v with temperature := some 0 } =
        calculateVitalsSeverity { v with temperature := none }) := by
  refine ⟨by decide, by decide, fun v => ?_, fun v => ?_, fun v => ?_⟩ <;>
    simp [calculateVitalsSeverity, sevCounts]

/-- Claim C1, counterexample: ingesting `{patientId: "P1", heartRate: 180}`
through the ingestion pipeline creates exactly one alert, but its
discriminator field is `alertType = "vital_threshold_exceeded"` (written by
`createEmergencyAlert` from the payload of `addVitalReading`), not
`vitals_critical`. -/
theorem ingest_alert_type_counterexample :
    ((addVitalReading [] [] { patientId := some "P1", heartRate := some 180 }
        { persistReadingResult := Except.ok "r1", persistAlertResult := Except.ok "a1" }).2.1.map
          IngestAlertDoc.alertType = ["vital_threshold_exceeded"]) ∧
    "vital_threshold_exceeded" ≠ "vitals_critical" := by
  constructor
  · norm_num [addVitalReading, checkVitalThresholds, DEFAULT_THRESHOLDS]
  · decide

/-- Claim C1, amended: for every ingested raw reading the pipeline persists
exactly one reading, with isEmergency set by the threshold evaluator, and,
when the reading is classified as emergency, creates exactly one alert whose
alertType is vital_threshold_exceeded and whose status is active (the
ingestion path writes no `type` field); in particular ingesting
`{patientId: "P1", heartRate: 180}` persists an isEmergency-true reading and
creates exactly one active alert. -/
theorem ingest_pipeline_effects (readings : List VitalReading) (alerts : List IngestAlertDoc)
    (reading : VitalReading) (rid aid : String) :
    addVitalReading readings alerts reading
      { persistReadingResult := Except.ok rid, persistAlertResult := Except.ok aid } =
    (readings ++ [{ reading with isEmergency := some (checkVitalThresholds reading DEFAULT_THRESHOLDS) }],
     (if checkVitalThresholds reading DEFAULT_THRESHOLDS then
        alerts ++ [{ patientId := reading.patientId
                     vitalReading := { reading with isEmergency := some (checkVitalThresholds reading DEFAULT_THRESHOLDS) }
                     alertType := "vital_threshold_exceeded"
                     status := "active"
                     acknowledgedBy := none }]
      else alerts),
     Except.ok rid) ∧
    addVitalReading [] [] { patientId := some "P1", heartRate := some 180 }
      { persistReadingResult := Except.ok "r1", persistAlertResult := Except.ok "a1" } =
    ([{ patientId := some "P1", heartRate := some 180, isEmergency := some true }],
     [{ patientId := some "P1"
        vitalReading := { patientId := some "P1", heartRate := some 180, isEmergency := some true }
        alertType := "vital_threshold_exceeded"
        status := "active"
        acknowledgedBy := none }],
     Except.ok "r1") := by
  constructor
  · exact addVitalReading_ok_eq readings alerts reading rid aid
  · norm_num [addVitalReading, checkVitalThresholds, DEFAULT_THRESHOLDS]

/-- Claim C3, counterexample: a raw reading with no patient reference
(`patientId` absent) is not rejected: ingestion returns the new reading id
and persists the reading, and (being emergency-classified) even creates an
alert; no validation step exists in `addVitalReading`. -/
theorem ingest_missing_patient_counterexample :
    ((addVitalReading [] [] { heartRate := some 180 }
        { persistReadingResult := Except.ok "r1", persistAlertResult := Except.ok "a1" }).2.2 =
      Except.ok "r1") ∧
    ((addVitalReading [] [] { heartRate := some 180 }
        { persistReadingResult := Except.ok "r1", persistAlertResult := Except.ok "a1" }).1 =
      [{ heartRate := some 180, isEmergency := some true }]) ∧
    ((addVitalReading [] [] { heartRate := some 180 }
        { persistReadingResult := Except.ok "r1", persistAlertResult := Except.ok "a1" }).2.1.length = 1) := by
  refine ⟨?_, ?_, ?_⟩ <;> norm_num [addVitalReading, checkVitalThresholds, DEFAULT_THRESHOLDS]

/-- Claim C3, amended: the ingestion pipeline performs no patient-reference
validation — a raw reading whose patient reference is absent is processed
exactly like any other: the reading is persisted with isEmergency from the
evaluator, the call returns the new reading id, and an alert is created
exactly when the reading is emergency-classified. -/
theorem ingest_no_patient_validation (readings : List VitalReading) (alerts : List IngestAlertDoc)
    (reading : VitalReading) (rid aid : String) (h : reading.patientId = none) :
    (addVitalReading readings alerts reading
      { persistReadingResult := Except.ok rid, persistAlertResult := Except.ok aid }).2.2 =
      Except.ok rid ∧
    (addVitalReading readings alerts reading
      { persistReadingResult := Except.ok rid, persistAlertResult := Except.ok aid }).1 =
      readings ++ [{ reading with isEmergency := some (checkVitalThresholds reading DEFAULT_THRESHOLDS) }] ∧
    (addVitalReading readings alerts reading
      { persistReadingResult := Except.ok rid, persistAlertResult := Except.ok aid }).2.1.length =
      (if checkVitalThresholds reading DEFAULT_THRESHOLDS then alerts.length + 1 else alerts.length) := by
  refine ⟨?_, ?_, ?_⟩ <;>
    by_cases hc : checkVitalThresholds reading DEFAULT_THRESHOLDS <;>
      simp [addVitalReading_ok_eq, hc]

/-- Witness for the amended claim C3, at the concrete reading
`{heartRate: 180}` with no patient reference. -/
theorem ingest_no_patient_validation_witness :
    (addVitalReading [] [] { heartRate := some 180 }
      { persistReadingResult := Except.ok "r9", persistAlertResult := Except.ok "a9" }).2.2 =
      Except.ok "r9" ∧
    (addVitalReading [] [] { heartRate := some 180 }
      { persistReadingResult := Except.ok "r9", persistAlertResult := Except.ok "a9" }).1 =
      [] ++ [{ heartRate := some 180,
               isEmergency := some (checkVitalThresholds { heartRate := some 180 } DEFAULT_THRESHOLDS) }] ∧
    (addVitalReading [] [] { heartRate := some 180 }
      { persistReadingResult := Except.ok "r9", persistAlertResult := Except.ok "a9" }).2.1.length =
      (if checkVitalThresholds { heartRate := some 180 } DEFAULT_THRESHOLDS
       then List.length ([] : List IngestAlertDoc) + 1 else List.length ([] : List IngestAlertDoc)) :=
  ingest_no_patient_validation [] [] { heartRate := some 180 } "r9" "a9" rfl

/-- Claim C5, counterexample: the transactional acknowledge guard uses JS
truthiness, so an empty-string acknowledger defeats first-acknowledger-wins:
an alert whose `acknowledgedBy` is already set to `""` is acknowledged again
successfully, and of two acknowledge calls (the first with responder id
`""`) both succeed. -/
theorem acknowledge_empty_responder_counterexample :
    (applyAcknowledge (some { patientId := "P1", type := "manual_sos", severity := Severity.critical,
                              status := "acknowledged", acknowledgedBy := some "" }) "r2").2 = true ∧
    (applyAcknowledge (some { patientId := "P1", type := "manual_sos", severity := Severity.critical,
                              status := "active", acknowledgedBy := none }) "").2 = true ∧
    (applyAcknowledge
      (applyAcknowledge (some { patientId := "P1", type := "manual_sos", severity := Severity.critical,
                                status := "active", acknowledgedBy := none }) "").1 "r2").2 = true := by
  decide

/-- Claim C5, amended: acknowledge fails with the `Alert already
acknowledged` error and leaves the alert unchanged whenever `acknowledgedBy`
is set to a nonempty responder id (the guard treats null and the empty
string as unset); hence of two serialised acknowledge calls on an
unacknowledged alert whose first call carries a nonempty responder id, the
first succeeds and the second fails. -/
theorem acknowledge_first_wins (d e : AlertDoc) (r1 r2 r3 s : String)
    (h1 : r1 ≠ "") (h0 : d.acknowledgedBy = none)
    (hs : e.acknowledgedBy = some s) (hne : s ≠ "") :
    applyAcknowledge (some d) r1 =
      (some { d with status := "acknowledged", acknowledgedBy := some r1 }, true) ∧
    applyAcknowledge (some { d with status := "acknowledged", acknowledgedBy := some r1 }) r2 =
      (some { d with status := "acknowledged", acknowledgedBy := some r1 }, false) ∧
    acknowledgeAlertTx (some e) r3 = Except.error "Alert already acknowledged" ∧
    applyAcknowledge (some e) r3 = (some e, false) := by
  refine ⟨?_, ?_, ?_, ?_⟩ <;>
    simp [applyAcknowledge, acknowledgeAlertTx, jsTruthyStr, h0, h1, hs, hne]

/-- Witness for the amended claim C5, at a concrete active alert and the
responders alice and bob. -/
theorem acknowledge_first_wins_witness :
    applyAcknowledge (some { patientId := "P1", type := "manual_sos", severity := Severity.critical,
                             status := "active", acknowledgedBy := none }) "alice" =
      (some { patientId := "P1", type := "manual_sos", severity := Severity.critical,
              status := "acknowledged", acknowledgedBy := some "alice" }, true) ∧
    applyAcknowledge (some { patientId := "P1", type := "manual_sos", severity := Severity.critical,
                             status := "acknowledged", acknowledgedBy := some "alice" }) "bob" =
      (some { patientId := "P1", type := "manual_sos", severity := Severity.critical,
              status := "acknowledged", acknowledgedBy := some "alice" }, false) ∧
    acknowledgeAlertTx (some { patientId := "P2", type := "vitals_critical", severity := Severity.high,
                               status := "acknowledged", acknowledgedBy := some "carol" }) "bob" =
      Except.error "Alert already acknowledged" ∧
    applyAcknowledge (some { patientId := "P2", type := "vitals_critical", severity := Severity.high,
                             status := "acknowledged", acknowledgedBy := some "carol" }) "bob" =
      (some { patientId := "P2", type := "vitals_critical", severity := Severity.high,
              status := "acknowledged", acknowledgedBy := some "carol" }, false) :=
  acknowledge_first_wins
    { patientId := "P1", type := "manual_sos", severity := Severity.critical,
      status := "active", acknowledgedBy := none }
    { patientId := "P2", type := "vitals_critical", severity := Severity.high,
      status := "acknowledged", acknowledgedBy := some "carol" }
    "alice" "bob" "bob" "carol" (by decide) rfl rfl (by decide)

/-- Claim C6, counterexample: on an alert whose persisted status is resolved,
startResponse does not fail — it succeeds and moves the status to
responding, a transition out of resolved. -/
theorem resolved_transition_counterexample :
    (sosStartResponse (some { patientId := "P1", type := "manual_sos", severity := Severity.critical,
                              status := "resolved" }) "r9").2 = true ∧
    ((sosStartResponse (some { patientId := "P1", type := "manual_sos", severity := Severity.critical,
                               status := "resolved" }) "r9").1.map AlertDoc.status = some "responding") ∧
    "responding" ≠ "resolved" := by decide

/-- Claim C6, amended: the lifecycle operations implement no status guard and
no InvalidTransition error: on an alert whose persisted status is resolved,
startResponse succeeds and sets the status to responding, the unguarded
acknowledge succeeds and sets it to acknowledged, resolve succeeds again
overwriting the message, and even the transactional acknowledge succeeds
whenever `acknowledgedBy` is unset — so transitions out of resolved do
occur. -/
theorem lifecycle_no_resolved_guard (st : SOSState) (aid : String) (d : AlertDoc)
    (r res : String) (h : d.status = "resolved") (hack : d.acknowledgedBy = none) :
    sosStartResponse (some d) r =
      (some { d with status := "responding", responderId := some r }, true) ∧
    sosAcknowledgeAlert (some d) r =
      (some { d with status := "acknowledged", acknowledgedBy := some r }, true) ∧
    (sosResolveAlert st aid (some d) res).2 =
      (some { d with status := "resolved", message := some res }, true) ∧
    acknowledgeAlertTx (some d) r =
      Except.ok { d with status := "acknowledged", acknowledgedBy := some r } := by
  refine ⟨rfl, rfl, ?_, ?_⟩
  · simp [sosResolveAlert]
  · simp [acknowledgeAlertTx, jsTruthyStr, hack]

/-- Witness for the amended claim C6, at a concrete resolved alert. -/
theorem lifecycle_no_resolved_guard_witness :
    sosStartResponse (some { patientId := "P1", type := "manual_sos", severity := Severity.critical,
                             status := "resolved" }) "r9" =
      (some { patientId := "P1", type := "manual_sos", severity := Severity.critical,
              status := "responding", responderId := some "r9" }, true) ∧
    sosAcknowledgeAlert (some { patientId := "P1", type := "manual_sos", severity := Severity.critical,
                                status := "resolved" }) "r9" =
      (some { patientId := "P1", type := "manual_sos", severity := Severity.critical,
              status := "acknowledged", acknowledgedBy := some "r9" }, true) ∧
    (sosResolveAlert { isSOSActive := false, currentAlertId := none } "a1"
        (some { patientId := "P1", type := "manual_sos", severity := Severity.critical,
                status := "resolved" }) "done").2 =
      (some { patientId := "P1", type := "manual_sos", severity := Severity.critical,
              status := "resolved", message := some "done" }, true) ∧
    acknowledgeAlertTx (some { patientId := "P1", type := "manual_sos", severity := Severity.critical,
                               status := "resolved" }) "r9" =
      Except.ok { patientId := "P1", type := "manual_sos", severity := Severity.critical,
                  status := "acknowledged", acknowledgedBy := some "r9" } :=
  lifecycle_no_resolved_guard { isSOSActive := false, currentAlertId := none } "a1"
    { patientId := "P1", type := "manual_sos", severity := Severity.critical, status := "resolved" }
    "r9" "done" rfl rfl

/-- Claim C7: the SOS session manager's two-state machine is enforced:
triggerSOS while a session is active returns a failure response carrying the
existing alert id and performs no effect (in particular no second alert is
created and the store is unchanged), and cancelSOS while idle returns false
and changes nothing. -/
theorem sos_session_guards (st st2 : SOSState) (store store2 : List (String × AlertDoc))
    (pid : String) (msg reason : Option String) (denv : DispatchEnv) (cenv : CancelEnv)
    (hA : st.isSOSActive = true) (hI : st2.isSOSActive = false) :
    triggerSOS st store pid msg denv =
      (st, store,
       { alertId := st.currentAlertId, success := false, message := "SOS already active" },
       { responders := false, family := false, contacts := false }) ∧
    cancelSOS st2 store2 reason cenv = (st2, store2, false) := by
  constructor
  · simp [triggerSOS, hA]
  · obtain ⟨a, id⟩ := st2
    simp only at hI
    subst hI
    rfl

/-- Witness for claim C7, at a concrete active session and a concrete idle
session. -/
theorem sos_session_guards_witness :
    triggerSOS { isSOSActive := true, currentAlertId := some "a1" } [] "P1" none
      { locationResult := Except.error (), profileResult := Except.error (),
        persistResult := Except.ok "a2", notifyRespondersOk := true,
        notifyFamilyOk := true, notifyContactsOk := true } =
      ({ isSOSActive := true, currentAlertId := some "a1" }, [],
       { alertId := some "a1", success := false, message := "SOS already active" },
       { responders := false, family := false, contacts := false }) ∧
    cancelSOS { isSOSActive := false, currentAlertId := none } [] none
      { updateResult := Except.ok (), notifyResult := Except.ok () } =
      ({ isSOSActive := false, currentAlertId := none }, [], false) :=
  sos_session_guards { isSOSActive := true, currentAlertId := some "a1" }
    { isSOSActive := false, currentAlertId := none } [] [] "P1" none none
    { locationResult := Except.error (), profileResult := Except.error (),
      persistResult := Except.ok "a2", notifyRespondersOk := true,
      notifyFamilyOk := true, notifyContactsOk := true }
    { updateResult := Except.ok (), notifyResult := Except.ok () } rfl rfl

/-- Claim C8, counterexample: a vitals-triggered alert with computed severity
low is dispatched (persisted) but its responder leg is not attempted, and a
manual SOS dispatch never attempts the family leg. -/
theorem notification_legs_counterexample :
    ((triggerVitalsAlert [] "P1" { heartRate := some 110 }
        { locationResult := Except.error (), profileResult := Except.error (),
          persistResult := Except.ok "a1", notifyRespondersOk := true,
          notifyFamilyOk := true, notifyContactsOk := true }).1.length = 1) ∧
    ((triggerVitalsAlert [] "P1" { heartRate := some 110 }
        { locationResult := Except.error (), profileResult := Except.error (),
          persistResult := Except.ok "a1", notifyRespondersOk := true,
          notifyFamilyOk := true, notifyContactsOk := true }).2.2.responders = false) ∧
    ((triggerSOS { isSOSActive := false, currentAlertId := none } [] "P1" none
        { locationResult := Except.error (), profileResult := Except.error (),
          persistResult := Except.ok "a2", notifyRespondersOk := true,
          notifyFamilyOk := true, notifyContactsOk := true }).2.1.length = 1) ∧
    ((triggerSOS { isSOSActive := false, currentAlertId := none } [] "P1" none
        { locationResult := Except.error (), profileResult := Except.error (),
          persistResult := Except.ok "a2", notifyRespondersOk := true,
          notifyFamilyOk := true, notifyContactsOk := true }).2.2.2.family = false) := by
  refine ⟨?_, ?_, ?_, ?_⟩ <;> rfl

/-- Claim C8, amended: after a successful persistence, a vitals-triggered
dispatch attempts the family leg always but the responder leg only when the
computed severity is critical, while a manual SOS dispatch attempts the
responder leg always, the family leg never, and the emergency-contact leg
exactly when the gathered medical profile has an emergencyContacts field. -/
theorem notification_legs_policy (store : List (String × AlertDoc)) (pid : String)
    (v : VitalReading) (env : DispatchEnv) (docId : String) (st : SOSState)
    (msg : Option String)
    (hok : env.persistResult = Except.ok docId) (hidle : st.isSOSActive = false) :
    (triggerVitalsAlert store pid v env).2.2 =
      { responders := decide (calculateVitalsSeverity v = Severity.critical)
        family := true
        contacts := false } ∧
    (triggerSOS st store pid msg env).2.2.2 =
      { responders := true
        family := false
        contacts := hasEmergencyContacts (gatheredProfile env) } := by
  constructor
  · simp [triggerVitalsAlert, hok]
  · simp [triggerSOS, hidle, hok]

/-- Witness for the amended claim C8, at a concrete low-severity vitals
reading and a concrete idle session. -/
theorem notification_legs_policy_witness :
    (triggerVitalsAlert [] "P1" { heartRate := some 110 }
        { locationResult := Except.error (), profileResult := Except.error (),
          persistResult := Except.ok "a1", notifyRespondersOk := true,
          notifyFamilyOk := true, notifyContactsOk := true }).2.2 =
      { responders := decide (calculateVitalsSeverity { heartRate := some 110 } = Severity.critical)
        family := true
        contacts := false } ∧
    (triggerSOS { isSOSActive := false, currentAlertId := none } [] "P1" none
        { locationResult := Except.error (), profileResult := Except.error (),
          persistResult := Except.ok "a1", notifyRespondersOk := true,
          notifyFamilyOk := true, notifyContactsOk := true }).2.2.2 =
      { responders := true
        family := false
        contacts := hasEmergencyContacts (gatheredProfile
          { locationResult := Except.error (), profileResult := Except.error (),
            persistResult := Except.ok "a1", notifyRespondersOk := true,
            notifyFamilyOk := true, notifyContactsOk := true }) } :=
  notification_legs_policy [] "P1" { heartRate := some 110 }
    { locationResult := Except.error (), profileResult := Except.error (),
      persistResult := Except.ok "a1", notifyRespondersOk := true,
      notifyFamilyOk := true, notifyContactsOk := true }
    "a1" { isSOSActive := false, currentAlertId := none } none rfl rfl

/-- Claim C9: a dispatch returns the alert id exactly when persisting the
alert succeeds and fails only when persistence fails; enrichment failures
degrade to absent location/profile fields on the persisted alert instead of
propagating, and notification outcomes affect neither the result nor the
persisted store. -/
theorem dispatch_persistence_policy (store : List (String × AlertDoc)) (pid : String)
    (v : VitalReading) (env env2 : DispatchEnv) (docId : String) (st : SOSState)
    (msg : Option String)
    (hok : env.persistResult = Except.ok docId)
    (herr : env2.persistResult = Except.error ())
    (hidle : st.isSOSActive = false) :
    triggerVitalsAlert store pid v env =
      (store ++ [(docId, vitalsAlertDoc pid v env)], Except.ok docId,
       { responders := decide (calculateVitalsSeverity v = Severity.critical)
         family := true, contacts := false }) ∧
    triggerVitalsAlert store pid v env2 =
      (store, Except.error (), { responders := false, family := false, contacts := false }) ∧
    (vitalsAlertDoc pid v
      { env with locationResult := Except.error (), profileResult := Except.error () }).location =
      none ∧
    (vitalsAlertDoc pid v
      { env with locationResult := Except.error (), profileResult := Except.error () }).medicalProfile =
      none ∧
    (triggerVitalsAlert store pid v
      { env with notifyRespondersOk := false, notifyFamilyOk := false, notifyContactsOk := false }).1 =
      (triggerVitalsAlert store pid v env).1 ∧
    (triggerVitalsAlert store pid v
      { env with notifyRespondersOk := false, notifyFamilyOk := false, notifyContactsOk := false }).2.1 =
      (triggerVitalsAlert store pid v env).2.1 ∧
    triggerSOS st store pid msg env =
      ({ isSOSActive := true, currentAlertId := some docId },
       store ++ [(docId, sosAlertDoc pid msg env)],
       { alertId := some docId, success := true, message := "Emergency alert sent successfully" },
       { responders := true, family := false,
         contacts := hasEmergencyContacts (gatheredProfile env) }) ∧
    triggerSOS st store pid msg env2 =
      ({ isSOSActive := false, currentAlertId := none }, store,
       { alertId := some "", success := false, message := "Failed to send emergency alert" },
       { responders := false, family := false, contacts := false }) := by
  refine ⟨?_, ?_, ?_, ?_, ?_, ?_, ?_, ?_⟩
  · simp [triggerVitalsAlert, hok]
  · simp [triggerVitalsAlert, herr]
  · simp [vitalsAlertDoc, Except.toOption]
  · simp [vitalsAlertDoc, gatheredProfile]
  · simp [triggerVitalsAlert, vitalsAlertDoc, gatheredProfile, hok]
  · simp [triggerVitalsAlert, hok]
  · simp [triggerSOS, sosAlertDoc, hidle, hok]
  · simp [triggerSOS, hidle, herr]

/-- Witness for claim C9: a successful and a failing persistence at a
concrete reading and session. -/
theorem dispatch_persistence_policy_witness :
    triggerVitalsAlert [] "P1" { heartRate := some 110 }
      { locationResult := Except.error (), profileResult := Except.error (),
        persistResult := Except.ok "a1", notifyRespondersOk := true,
        notifyFamilyOk := true, notifyContactsOk := true } =
      ([("a1", vitalsAlertDoc "P1" { heartRate := some 110 }
          { locationResult := Except.error (), profileResult := Except.error (),
            persistResult := Except.ok "a1", notifyRespondersOk := true,
            notifyFamilyOk := true, notifyContactsOk := true })],
       Except.ok "a1",
       { responders := decide (calculateVitalsSeverity { heartRate := some 110 } = Severity.critical)
         family := true, contacts := false }) ∧
    triggerVitalsAlert [] "P1" { heartRate := some 110 }
      { locationResult := Except.error (), profileResult := Except.error (),
        persistResult := Except.error (), notifyRespondersOk := true,
        notifyFamilyOk := true, notifyContactsOk := true } =
      ([], Except.error (), { responders := false, family := false, contacts := false }) :=
  ⟨(dispatch_persistence_policy [] "P1" { heartRate := some 110 }
      { locationResult := Except.error (), profileResult := Except.error (),
        persistResult := Except.ok "a1", notifyRespondersOk := true,
        notifyFamilyOk := true, notifyContactsOk := true }
      { locationResult := Except.error (), profileResult := Except.error (),
        persistResult := Except.error (), notifyRespondersOk := true,
        notifyFamilyOk := true, notifyContactsOk := true }
      "a1" { isSOSActive := false, currentAlertId := none } none rfl rfl rfl).1,
   (dispatch_persistence_policy [] "P1" { heartRate := some 110 }
      { locationResult := Except.error (), profileResult := Except.error (),
        persistResult := Except.ok "a1", notifyRespondersOk := true,
        notifyFamilyOk := true, notifyContactsOk := true }
      { locationResult := Except.error (), profileResult := Except.error (),
        persistResult := Except.error (), notifyRespondersOk := true,
        notifyFamilyOk := true, notifyContactsOk := true }
      "a1" { isSOSActive := false, currentAlertId := none } none rfl rfl rfl).2.1⟩
